import Mathlib

/-!
Neptune orbital report: `Opsis/lab3_2/ko.c`

A shallow embedding of `procfile_read`, the read handler of the `/proc/tsulab`
entry, and of the integer arithmetic it performs.

Conventions of the embedding.

* Every C integer is an `Int`.  A value of a signed 64-bit type (`time64_t`,
  `s64`, `loff_t`, `ssize_t`, `long long`) lies in `[-2^63, 2^63)`, a value of
  `unsigned long` / `unsigned long long` in `[0, 2^64)` (the module is built for
  a 64-bit kernel).  Where the C code stores a result into such a type the
  embedding applies `wrap_s64` / `wrap_u64`; kernel code is compiled with
  `-fno-strict-overflow`, so signed arithmetic wraps as well.
* C division and remainder truncate toward zero: `Int.tdiv` and `Int.tmod`.
* Each local variable of `procfile_read` that depends on the clock is a
  function, with the name of the variable, of the clamped `elapsed_sec`.
* `ktime_get_real_seconds`, `snprintf` and `copy_to_user` are kernel routines:
  the clock value and the number of bytes `copy_to_user` reports as not copied
  are parameters, `snprintf` is modelled for the conversions the template uses.
-/

namespace Ko

/-! ## Constants (`#define`s of ko.c) -/

/-- Line 12, `#define BASE_TIMESTAMP 1766016000L`: 2025-12-18 00:00:00 UTC. -/
def BASE_TIMESTAMP : Int := 1766016000

/-- Line 15, `#define ORBITAL_PERIOD_SECONDS 5198400000LL`. -/
def ORBITAL_PERIOD_SECONDS : Int := 5198400000

/-- Line 16, `#define CURRENT_CONSTELLATION "Pisces"`. -/
def CURRENT_CONSTELLATION : String := "Pisces"

/-- Line 17, `#define ORBITAL_SPEED_KM_PER_SEC 5`. -/
def ORBITAL_SPEED_KM_PER_SEC : Int := 5

/-- Line 18, `#define DISTANCE_FROM_SUN_KM 4504000000UL`. -/
def DISTANCE_FROM_SUN_KM : Int := 4504000000

/-- Errno 14, "Bad address". -/
def EFAULT : Int := 14

/-! ## Machine integers -/

/-- Two's-complement wrap into the signed 64-bit range `[-2^63, 2^63)`. -/
def wrap_s64 (x : Int) : Int :=
  (x + 9223372036854775808) % 18446744073709551616 - 9223372036854775808

/-- Reduction into the unsigned 64-bit range `[0, 2^64)`. -/
def wrap_u64 (x : Int) : Int := x % 18446744073709551616

/-- Two's-complement wrap into the range of `int`, `[-2^31, 2^31)`. -/
def wrap_s32 (x : Int) : Int := (x + 2147483648) % 4294967296 - 2147483648

/-! ## The arithmetic of `procfile_read` -/

/-- Lines 27 and 40-41: `s64 elapsed_sec = now - BASE_TIMESTAMP;` followed by
`if (elapsed_sec < 0) elapsed_sec = 0;`. -/
def elapsed_sec (now : Int) : Int :=
  let d := wrap_s64 (now - BASE_TIMESTAMP)
  if d < 0 then 0 else d

/-- Line 44: `full_orbits = elapsed_sec / ORBITAL_PERIOD_SECONDS;` (signed
division, stored in an `unsigned long`). -/
def full_orbits (e : Int) : Int := wrap_u64 (Int.tdiv e ORBITAL_PERIOD_SECONDS)

/-- Line 47: `time_in_current_orbit = elapsed_sec % ORBITAL_PERIOD_SECONDS;`. -/
def time_in_current_orbit (e : Int) : Int := Int.tmod e ORBITAL_PERIOD_SECONDS

/-- Line 50: `time_until_return = ORBITAL_PERIOD_SECONDS - time_in_current_orbit;`. -/
def time_until_return (e : Int) : Int :=
  wrap_s64 (ORBITAL_PERIOD_SECONDS - time_in_current_orbit e)

/-- Line 53: `orbit_completion_percent = (100ULL * time_in_current_orbit) /
ORBITAL_PERIOD_SECONDS;`: both operands of the product and of the division are
converted to `unsigned long long`. -/
def orbit_completion_percent (e : Int) : Int :=
  wrap_u64 (Int.tdiv (wrap_u64 (100 * wrap_u64 (time_in_current_orbit e)))
    (wrap_u64 ORBITAL_PERIOD_SECONDS))

/-- Line 56: `neptune_distance_km = DISTANCE_FROM_SUN_KM;`. -/
def neptune_distance_km : Int := DISTANCE_FROM_SUN_KM

/-- Line 59: `distance_increase = ORBITAL_SPEED_KM_PER_SEC * elapsed_sec;` (a
signed 64-bit product stored in an `unsigned long`). -/
def distance_increase (e : Int) : Int :=
  wrap_u64 (wrap_s64 (ORBITAL_SPEED_KM_PER_SEC * e))

/-- Line 62: `years = time_until_return / (365 * 24 * 3600);`. -/
def years (e : Int) : Int := wrap_u64 (Int.tdiv (time_until_return e) (365 * 24 * 3600))

/-- Line 63: `months = (time_until_return % (365 * 24 * 3600)) / (30 * 24 * 3600);`. -/
def months (e : Int) : Int :=
  wrap_u64 (Int.tdiv (Int.tmod (time_until_return e) (365 * 24 * 3600)) (30 * 24 * 3600))

/-- Line 64: `days = (time_until_return % (30 * 24 * 3600)) / (24 * 3600);`. -/
def days (e : Int) : Int :=
  wrap_u64 (Int.tdiv (Int.tmod (time_until_return e) (30 * 24 * 3600)) (24 * 3600))

/-- Line 65: `hours = (time_until_return % (24 * 3600)) / 3600;`. -/
def hours (e : Int) : Int :=
  wrap_u64 (Int.tdiv (Int.tmod (time_until_return e) (24 * 3600)) 3600)

/-- Line 66: `minutes = (time_until_return % 3600) / 60;`. -/
def minutes (e : Int) : Int := wrap_u64 (Int.tdiv (Int.tmod (time_until_return e) 3600) 60)

/-- Line 67: `secs = time_until_return % 60;`. -/
def secs (e : Int) : Int := wrap_u64 (Int.tmod (time_until_return e) 60)

/-- Line 86, the ninth argument of `snprintf`: `orbit_completion_percent / 100`. -/
def percent_whole (e : Int) : Int := Int.tdiv (orbit_completion_percent e) 100

/-- Line 87, the tenth argument of `snprintf`: `orbit_completion_percent % 100`. -/
def percent_fractional (e : Int) : Int := Int.tmod (orbit_completion_percent e) 100

/-! ## Formatting -/

/-- An argument handed to `snprintf` after the format string. -/
inductive FmtArg where
  | str (s : String)
  | ulong (n : Int)
  | int (n : Int)

/-- The conversion `%lu`: the decimal digits of an `unsigned long`. -/
def fmt_lu (n : Int) : List Char := (Nat.repr (wrap_u64 n).toNat).data

/-- The conversion `%02lu`: decimal digits, zero-padded on the left to width 2. -/
def fmt_02lu (n : Int) : List Char :=
  if (fmt_lu n).length < 2 then '0' :: fmt_lu n else fmt_lu n

/-- The text `snprintf` produces, before any truncation, for the conversions
that occur in the template of ko.c (`%s`, `%lu`, `%02lu`, `%%`).  The format
string is read left to right, each conversion consumes the next argument, every
other character is copied, and arguments left over when the format string ends
are ignored. -/
def vsnprintf_text : List Char → List FmtArg → List Char
  | '%' :: '%' :: fmt, args => '%' :: vsnprintf_text fmt args
  | '%' :: 's' :: fmt, FmtArg.str s :: args => s.data ++ vsnprintf_text fmt args
  | '%' :: 'l' :: 'u' :: fmt, FmtArg.ulong n :: args => fmt_lu n ++ vsnprintf_text fmt args
  | '%' :: '0' :: '2' :: 'l' :: 'u' :: fmt, FmtArg.ulong n :: args =>
      fmt_02lu n ++ vsnprintf_text fmt args
  | c :: fmt, args => c :: vsnprintf_text fmt args
  | [], _ => []

/-- The call `snprintf(buf, size, fmt, ...)`: the characters left in `buf` in
front of the terminating NUL (at most `size - 1` of them) and the returned
`int`, the length of the untruncated text. -/
def snprintf (size : Nat) (fmt : List Char) (args : List FmtArg) : List Char × Int :=
  let text := vsnprintf_text fmt args
  (text.take (size - 1), wrap_s32 text.length)

/-- Lines 70-81: the format string of the report.  The closing rule of line 81
is 51 characters `=` and a newline, written here as three runs of 17. -/
def msg_format : String :=
  "=========== TSU: Astronomical Laboratory ===========\n" ++
  "                     PLANET NEPTUNE\n\n" ++
  "Current position: %s constellation\n" ++
  "Distance from Sun: %lu million km\n\n" ++
  "Time until returning to the same constellation:\n" ++
  "%lu years %lu months %lu days\n" ++
  "%lu hours %lu minutes %lu seconds\n\n" ++
  "Current orbit progress: %lu.%02lu%%\n" ++
  "Full orbits since 2025-12-18: %lu\n\n" ++
  "Technical parameters:\n" ++
  "Orbital period: 164.8 years\n" ++
  "=================" ++ "=================" ++ "=================\n"

/-- Lines 82-90: the thirteen arguments that follow the format string. -/
def msg_args (e : Int) : List FmtArg :=
  [ FmtArg.str CURRENT_CONSTELLATION,
    FmtArg.ulong (Int.tdiv neptune_distance_km 1000000),
    FmtArg.ulong (years e), FmtArg.ulong (months e), FmtArg.ulong (days e),
    FmtArg.ulong (hours e), FmtArg.ulong (minutes e), FmtArg.ulong (secs e),
    FmtArg.ulong (percent_whole e),
    FmtArg.ulong (percent_fractional e),
    FmtArg.ulong (full_orbits e),
    FmtArg.int ORBITAL_SPEED_KM_PER_SEC,
    FmtArg.ulong (Int.tdiv (distance_increase e) 1000000) ]

/-- The untruncated report text for a given clamped `elapsed_sec`. -/
def msg_text (e : Int) : List Char := vsnprintf_text msg_format.data (msg_args e)

/-- Line 25 and lines 69-90: the contents of `char msg[600]` after the
`snprintf` call. -/
def msg (e : Int) : List Char := (snprintf 600 msg_format.data (msg_args e)).1

/-- Line 69: `int msg_len = snprintf(msg, sizeof(msg), ...)`. -/
def msg_len (e : Int) : Int := (snprintf 600 msg_format.data (msg_args e)).2

/-- The opening of every report: the format string up to its third conversion,
with `CURRENT_CONSTELLATION` and `neptune_distance_km / 1000000` filled in. -/
def msg_head : String :=
  "=========== TSU: Astronomical Laboratory ===========\n" ++
  "                     PLANET NEPTUNE\n\n" ++
  "Current position: Pisces constellation\n" ++
  "Distance from Sun: 4504 million km\n\n" ++
  "Time until returning to the same constellation:\n"

/-- The closing of every report: the format string after its last conversion. -/
def msg_tail : String :=
  "\n\n" ++
  "Technical parameters:\n" ++
  "Orbital period: 164.8 years\n" ++
  "=================" ++ "=================" ++ "=================\n"

/-! ## The read handler -/

/-- What one call of `procfile_read` leaves behind: the returned `ssize_t`, the
value of `*offset` afterwards, and the bytes stored in the caller's buffer
(`none` when `copy_to_user` is not reached). -/
structure ReadOutcome where
  ret : Int
  offset : Int
  copied : Option (List Char)
  deriving DecidableEq, Repr

/-- Lines 22-97, `procfile_read(file, buffer, len, offset)`.  `now` is the value
of `ktime_get_real_seconds()`, `not_copied` the value `copy_to_user` returns
(the number of bytes it could not store, `0` on success), `len` the requested
length and `offset` the value of `*offset` on entry.  `copy_to_user(buffer, msg,
msg_len)` stores the first `msg_len - not_copied` bytes of `msg`. -/
def procfile_read (now : Int) (not_copied : Nat) (len : Nat) (offset : Int) : ReadOutcome :=
  let _ := len
  if offset > 0 then
    { ret := 0, offset := offset, copied := none }
  else
    let e := elapsed_sec now
    let n := (wrap_u64 (msg_len e)).toNat
    let copied := (msg e).take (n - not_copied)
    if not_copied ≠ 0 then
      { ret := -EFAULT, offset := offset, copied := some copied }
    else
      { ret := msg_len e, offset := msg_len e, copied := some copied }

/-- Lines 25-35: the local variables of `procfile_read`.  `now` and
`elapsed_sec` are initialised where they are declared (lines 26-27); every other
local is declared without a value and is `none` until a statement assigns it. -/
structure Frame where
  now : Int
  elapsed_sec : Int
  full_orbits : Option Int
  time_in_current_orbit : Option Int
  time_until_return : Option Int
  orbit_completion_percent : Option Int
  neptune_distance_km : Option Int
  distance_increase : Option Int
  years : Option Int
  months : Option Int
  days : Option Int
  hours : Option Int
  minutes : Option Int
  secs : Option Int
  msg : Option (List Char)
  msg_len : Option Int
  deriving DecidableEq

/-- Lines 25-35, the locals when control reaches the guard of line 37: `now`
holds the clock value, `elapsed_sec` the difference `now - BASE_TIMESTAMP` of
line 27 (not yet clamped), and nothing else has been assigned. -/
def Frame.at_guard (now : Int) : Frame :=
  { now := now, elapsed_sec := wrap_s64 (now - BASE_TIMESTAMP),
    full_orbits := none, time_in_current_orbit := none, time_until_return := none,
    orbit_completion_percent := none, neptune_distance_km := none,
    distance_increase := none, years := none, months := none, days := none,
    hours := none, minutes := none, secs := none, msg := none, msg_len := none }

/-- Lines 22-97 once more, statement by statement, with the locals carried
along: the outcome of the call together with the frame at the `return` that is
taken.  The parameters are those of `procfile_read`. -/
def procfile_read_exec (now : Int) (not_copied : Nat) (len : Nat) (offset : Int) :
    ReadOutcome × Frame :=
  let _ := len
  -- lines 25-35
  let f := Frame.at_guard now
  -- lines 37-38
  if offset > 0 then
    ({ ret := 0, offset := offset, copied := none }, f)
  else
    -- lines 40-41
    let f := { f with elapsed_sec := if f.elapsed_sec < 0 then 0 else f.elapsed_sec }
    -- lines 44-59
    let f := { f with full_orbits := some (full_orbits f.elapsed_sec) }
    let f := { f with time_in_current_orbit := some (time_in_current_orbit f.elapsed_sec) }
    let f := { f with time_until_return := some (time_until_return f.elapsed_sec) }
    let f := { f with orbit_completion_percent := some (orbit_completion_percent f.elapsed_sec) }
    let f := { f with neptune_distance_km := some neptune_distance_km }
    let f := { f with distance_increase := some (distance_increase f.elapsed_sec) }
    -- lines 62-67
    let f := { f with years := some (years f.elapsed_sec) }
    let f := { f with months := some (months f.elapsed_sec) }
    let f := { f with days := some (days f.elapsed_sec) }
    let f := { f with hours := some (hours f.elapsed_sec) }
    let f := { f with minutes := some (minutes f.elapsed_sec) }
    let f := { f with secs := some (secs f.elapsed_sec) }
    -- lines 69-90
    let f := { f with msg := some (msg f.elapsed_sec), msg_len := some (msg_len f.elapsed_sec) }
    -- lines 92-96
    let n := (wrap_u64 (msg_len f.elapsed_sec)).toNat
    let copied := (msg f.elapsed_sec).take (n - not_copied)
    if not_copied ≠ 0 then
      ({ ret := -EFAULT, offset := offset, copied := some copied }, f)
    else
      ({ ret := msg_len f.elapsed_sec, offset := msg_len f.elapsed_sec,
         copied := some copied }, f)

/-! ## Basic facts about the arithmetic

For `elapsed_sec` in the range of a non-negative `s64` every wrap in the
arithmetic is the identity and truncating division agrees with floor division.
-/

theorem time_in_current_orbit_eq (e : Int) (h0 : 0 ≤ e) :
    time_in_current_orbit e = e % 5198400000 := by
  unfold time_in_current_orbit ORBITAL_PERIOD_SECONDS
  exact Int.tmod_eq_emod h0 (by decide)

theorem full_orbits_eq (e : Int) (h0 : 0 ≤ e) (h1 : e < 9223372036854775808) :
    full_orbits e = e / 5198400000 := by
  unfold full_orbits ORBITAL_PERIOD_SECONDS wrap_u64
  rw [Int.tdiv_eq_ediv h0 (by decide)]
  omega

theorem time_until_return_eq (e : Int) (h0 : 0 ≤ e) :
    time_until_return e = 5198400000 - e % 5198400000 := by
  unfold time_until_return
  rw [time_in_current_orbit_eq e h0]
  unfold ORBITAL_PERIOD_SECONDS wrap_s64
  omega

theorem orbit_completion_percent_eq (e : Int) (h0 : 0 ≤ e) :
    orbit_completion_percent e = (100 * (e % 5198400000)) / 5198400000 := by
  unfold orbit_completion_percent
  rw [time_in_current_orbit_eq e h0]
  unfold ORBITAL_PERIOD_SECONDS wrap_u64
  have hp : (5198400000 : Int) % 18446744073709551616 = 5198400000 := by decide
  have ht : e % 5198400000 % 18446744073709551616 = e % 5198400000 := by omega
  have hm : 100 * (e % 5198400000) % 18446744073709551616 = 100 * (e % 5198400000) := by
    omega
  rw [hp, ht, hm, Int.tdiv_eq_ediv (by omega) (by decide)]
  omega

theorem time_until_return_range (e : Int) (h0 : 0 ≤ e) :
    0 < time_until_return e ∧ time_until_return e ≤ 5198400000 := by
  rw [time_until_return_eq e h0]
  omega

theorem years_eq (e : Int) (h0 : 0 ≤ e) : years e = time_until_return e / 31536000 := by
  have hu := time_until_return_range e h0
  unfold years
  rw [Int.tdiv_eq_ediv (by omega) (by decide)]
  unfold wrap_u64
  omega

theorem months_eq (e : Int) (h0 : 0 ≤ e) :
    months e = time_until_return e % 31536000 / 2592000 := by
  have hu := time_until_return_range e h0
  unfold months
  rw [Int.tmod_eq_emod (by omega) (by decide), Int.tdiv_eq_ediv (by omega) (by decide)]
  unfold wrap_u64
  omega

theorem days_eq (e : Int) (h0 : 0 ≤ e) :
    days e = time_until_return e % 2592000 / 86400 := by
  have hu := time_until_return_range e h0
  unfold days
  rw [Int.tmod_eq_emod (by omega) (by decide), Int.tdiv_eq_ediv (by omega) (by decide)]
  unfold wrap_u64
  omega

theorem hours_eq (e : Int) (h0 : 0 ≤ e) :
    hours e = time_until_return e % 86400 / 3600 := by
  have hu := time_until_return_range e h0
  unfold hours
  rw [Int.tmod_eq_emod (by omega) (by decide), Int.tdiv_eq_ediv (by omega) (by decide)]
  unfold wrap_u64
  omega

theorem minutes_eq (e : Int) (h0 : 0 ≤ e) :
    minutes e = time_until_return e % 3600 / 60 := by
  have hu := time_until_return_range e h0
  unfold minutes
  rw [Int.tmod_eq_emod (by omega) (by decide), Int.tdiv_eq_ediv (by omega) (by decide)]
  unfold wrap_u64
  omega

theorem secs_eq (e : Int) (h0 : 0 ≤ e) : secs e = time_until_return e % 60 := by
  have hu := time_until_return_range e h0
  unfold secs
  rw [Int.tmod_eq_emod (by omega) (by decide)]
  unfold wrap_u64
  omega

/-- The ranges of the six countdown fields. -/
theorem countdown_fields_range (e : Int) (h0 : 0 ≤ e) :
    (0 ≤ years e ∧ years e ≤ 164) ∧ (0 ≤ months e ∧ months e ≤ 12) ∧
      (0 ≤ days e ∧ days e ≤ 29) ∧ (0 ≤ hours e ∧ hours e ≤ 23) ∧
      (0 ≤ minutes e ∧ minutes e ≤ 59) ∧ (0 ≤ secs e ∧ secs e ≤ 59) := by
  have hu := time_until_return_range e h0
  rw [years_eq e h0, months_eq e h0, days_eq e h0, hours_eq e h0, minutes_eq e h0,
    secs_eq e h0]
  generalize time_until_return e = u at hu
  omega

theorem percent_whole_eq (e : Int) (h0 : 0 ≤ e) : percent_whole e = 0 := by
  unfold percent_whole
  rw [orbit_completion_percent_eq e h0, Int.tdiv_eq_ediv (by omega) (by decide)]
  omega

theorem percent_fractional_eq (e : Int) (h0 : 0 ≤ e) :
    percent_fractional e = (100 * (e % 5198400000)) / 5198400000 := by
  unfold percent_fractional
  rw [orbit_completion_percent_eq e h0, Int.tmod_eq_emod (by omega) (by decide)]
  omega

theorem elapsed_sec_nonneg (now : Int) : 0 ≤ elapsed_sec now := by
  unfold elapsed_sec
  simp only
  split <;> omega

theorem elapsed_sec_lt (now : Int) : elapsed_sec now < 9223372036854775808 := by
  unfold elapsed_sec wrap_s64
  simp only
  split <;> omega

/-! ## The orbit arithmetic -/

/-- Claim C1: for every clamped `elapsed_sec` (a non-negative `s64`), the
quotient `full_orbits` and the remainder `time_in_current_orbit` by the orbital
period recompose to `elapsed_sec`, and the remainder lies in `[0, P)`. -/
theorem full_orbits_recompose (e : Int) (h0 : 0 ≤ e) (h1 : e < 9223372036854775808) :
    full_orbits e * ORBITAL_PERIOD_SECONDS + time_in_current_orbit e = e ∧
      0 ≤ time_in_current_orbit e ∧ time_in_current_orbit e < ORBITAL_PERIOD_SECONDS := by
  rw [full_orbits_eq e h0 h1, time_in_current_orbit_eq e h0]
  unfold ORBITAL_PERIOD_SECONDS
  omega

theorem full_orbits_recompose_witness :
    (0 : Int) ≤ 7000000000 ∧ (7000000000 : Int) < 9223372036854775808 ∧
      (full_orbits 7000000000 * ORBITAL_PERIOD_SECONDS + time_in_current_orbit 7000000000
          = 7000000000 ∧
        0 ≤ time_in_current_orbit 7000000000 ∧
        time_in_current_orbit 7000000000 < ORBITAL_PERIOD_SECONDS) :=
  ⟨by decide, by decide, full_orbits_recompose 7000000000 (by decide) (by decide)⟩

/-- Claim C2: for every clamped `elapsed_sec`, `time_until_return` is the period
minus `time_in_current_orbit` and lies in `(0, P]`; when `elapsed_sec` is a
multiple of the period it is the full period, as at `elapsed_sec = P` where
`full_orbits = 1` and `time_in_current_orbit = 0`. -/
theorem time_until_return_pos (e : Int) (h0 : 0 ≤ e) :
    (time_until_return e = ORBITAL_PERIOD_SECONDS - time_in_current_orbit e ∧
        0 < time_until_return e ∧ time_until_return e ≤ ORBITAL_PERIOD_SECONDS) ∧
      (ORBITAL_PERIOD_SECONDS ∣ e → time_until_return e = ORBITAL_PERIOD_SECONDS) ∧
      (full_orbits ORBITAL_PERIOD_SECONDS = 1 ∧
        time_in_current_orbit ORBITAL_PERIOD_SECONDS = 0 ∧
        time_until_return ORBITAL_PERIOD_SECONDS = ORBITAL_PERIOD_SECONDS) := by
  refine ⟨?_, ?_, by decide⟩
  · rw [time_until_return_eq e h0, time_in_current_orbit_eq e h0]
    unfold ORBITAL_PERIOD_SECONDS
    omega
  · intro hd
    rw [time_until_return_eq e h0]
    unfold ORBITAL_PERIOD_SECONDS at hd ⊢
    omega

theorem time_until_return_pos_witness :
    (0 : Int) ≤ 10396800000 ∧
      ((time_until_return 10396800000
            = ORBITAL_PERIOD_SECONDS - time_in_current_orbit 10396800000 ∧
          0 < time_until_return 10396800000 ∧
          time_until_return 10396800000 ≤ ORBITAL_PERIOD_SECONDS) ∧
        (ORBITAL_PERIOD_SECONDS ∣ 10396800000 →
          time_until_return 10396800000 = ORBITAL_PERIOD_SECONDS) ∧
        (full_orbits ORBITAL_PERIOD_SECONDS = 1 ∧
          time_in_current_orbit ORBITAL_PERIOD_SECONDS = 0 ∧
          time_until_return ORBITAL_PERIOD_SECONDS = ORBITAL_PERIOD_SECONDS)) :=
  ⟨by decide, time_until_return_pos 10396800000 (by decide)⟩

/-! ## The percentage -/

/-- Claim C3, evaluated at half an orbit, `elapsed_sec = P / 2 = 2599200000`:
`orbit_completion_percent` is `100 * t / P = 50`, not `10000 * t / P = 5000`, so
the two printed parts are whole `0` and fractional `50`, the text "0.50", and
`whole * 100 + fractional` is `50` where the scaled value is `5000`. -/
theorem percent_at_half_orbit :
    time_in_current_orbit 2599200000 = 2599200000 ∧
      orbit_completion_percent 2599200000 = 50 ∧
      percent_whole 2599200000 = 0 ∧ percent_fractional 2599200000 = 50 ∧
      fmt_lu (percent_whole 2599200000) ++ '.' :: fmt_02lu (percent_fractional 2599200000)
        = ['0', '.', '5', '0'] ∧
      (10000 * time_in_current_orbit 2599200000) / ORBITAL_PERIOD_SECONDS = 5000 ∧
      percent_whole 2599200000 * 100 + percent_fractional 2599200000
        ≠ (10000 * time_in_current_orbit 2599200000) / ORBITAL_PERIOD_SECONDS := by
  decide

/-- Claim C5: for every clamped `elapsed_sec`, the two printed percentage parts
`orbit_completion_percent / 100` and `orbit_completion_percent % 100` both lie
in `[0, 99]`. -/
theorem percent_parts_range (e : Int) (h0 : 0 ≤ e) :
    (0 ≤ percent_whole e ∧ percent_whole e ≤ 99) ∧
      (0 ≤ percent_fractional e ∧ percent_fractional e ≤ 99) := by
  rw [percent_whole_eq e h0, percent_fractional_eq e h0]
  omega

theorem percent_parts_range_witness :
    (0 : Int) ≤ 5198399999 ∧
      ((0 ≤ percent_whole 5198399999 ∧ percent_whole 5198399999 ≤ 99) ∧
        (0 ≤ percent_fractional 5198399999 ∧ percent_fractional 5198399999 ≤ 99)) :=
  ⟨by decide, percent_parts_range 5198399999 (by decide)⟩

/-! ## The countdown -/

/-- Claim C4, evaluated at `elapsed_sec = 0`, where `time_until_return` is the
full period 5198400000: the fields are 164 years, 10 months, 16 days, 16 hours,
0 minutes, 0 seconds.  `days` is taken from `time_until_return % (30 days)`, not
from what the years and months left over (which gives 6 days), and the six
fields add up to 5199264000 seconds, ten days more than `time_until_return`. -/
theorem countdown_at_epoch :
    time_until_return 0 = 5198400000 ∧
      years 0 = 164 ∧ months 0 = 10 ∧ days 0 = 16 ∧
      hours 0 = 16 ∧ minutes 0 = 0 ∧ secs 0 = 0 ∧
      (time_until_return 0 % (365 * 24 * 3600) % (30 * 24 * 3600)) / (24 * 3600) = 6 ∧
      years 0 * (365 * 24 * 3600) + months 0 * (30 * 24 * 3600) + days 0 * (24 * 3600)
        + hours 0 * 3600 + minutes 0 * 60 + secs 0 = 5199264000 ∧
      years 0 * (365 * 24 * 3600) + months 0 * (30 * 24 * 3600) + days 0 * (24 * 3600)
        + hours 0 * 3600 + minutes 0 * 60 + secs 0 ≠ time_until_return 0 := by
  decide

/-! ## The formatted report -/

set_option maxRecDepth 100000 in
/-- Running the format string over the thirteen arguments: nine of them vary
with `elapsed_sec`, and the two arguments that follow `full_orbits` are never
reached by a conversion. -/
theorem msg_text_eq (e : Int) :
    msg_text e =
      msg_head.data ++ (fmt_lu (years e) ++ (" years ".data ++ (fmt_lu (months e) ++
      (" months ".data ++ (fmt_lu (days e) ++ (" days\n".data ++ (fmt_lu (hours e) ++
      (" hours ".data ++ (fmt_lu (minutes e) ++ (" minutes ".data ++ (fmt_lu (secs e) ++
      (" seconds\n\nCurrent orbit progress: ".data ++ (fmt_lu (percent_whole e) ++
      (".".data ++ (fmt_02lu (percent_fractional e) ++
      ("%\nFull orbits since 2025-12-18: ".data ++ (fmt_lu (full_orbits e) ++
      msg_tail.data))))))))))))))))) := by
  rfl

set_option maxRecDepth 100000 in
theorem msg_head_length : msg_head.data.length = 213 := by decide

set_option maxRecDepth 100000 in
theorem msg_tail_length : msg_tail.data.length = 104 := by decide

theorem msg_text_length (e : Int) :
    (msg_text e).length =
      421 + ((fmt_lu (years e)).length + (fmt_lu (months e)).length + (fmt_lu (days e)).length
        + (fmt_lu (hours e)).length + (fmt_lu (minutes e)).length + (fmt_lu (secs e)).length
        + (fmt_lu (percent_whole e)).length + (fmt_02lu (percent_fractional e)).length
        + (fmt_lu (full_orbits e)).length) := by
  rw [msg_text_eq]
  simp only [List.length_append, msg_head_length, msg_tail_length,
    show " years ".data.length = 7 from rfl, show " months ".data.length = 8 from rfl,
    show " days\n".data.length = 6 from rfl, show " hours ".data.length = 7 from rfl,
    show " minutes ".data.length = 9 from rfl,
    show " seconds\n\nCurrent orbit progress: ".data.length = 34 from rfl,
    show ".".data.length = 1 from rfl,
    show "%\nFull orbits since 2025-12-18: ".data.length = 32 from rfl]
  omega

theorem fmt_lu_length_le (n : Int) (k : Nat) (hk : 0 < k)
    (h : (wrap_u64 n).toNat < 10 ^ k) : (fmt_lu n).length ≤ k :=
  Nat.repr_length _ k hk h

theorem fmt_02lu_length_le (n : Int) (h : (wrap_u64 n).toNat < 10 ^ 2) :
    (fmt_02lu n).length ≤ 2 := by
  have hl := fmt_lu_length_le n 2 (by decide) h
  unfold fmt_02lu
  split
  · simp only [List.length_cons]
    omega
  · exact hl

theorem msg_text_length_ge (e : Int) : 421 ≤ (msg_text e).length := by
  rw [msg_text_length]
  omega

theorem msg_text_length_le (e : Int) (h0 : 0 ≤ e) (h1 : e < 9223372036854775808) :
    (msg_text e).length ≤ 447 := by
  obtain ⟨hy, hmo, hd, hh, hmi, hs⟩ := countdown_fields_range e h0
  have hy := fmt_lu_length_le (years e) 3 (by decide) (by unfold wrap_u64; omega)
  have hmo := fmt_lu_length_le (months e) 2 (by decide) (by unfold wrap_u64; omega)
  have hd := fmt_lu_length_le (days e) 2 (by decide) (by unfold wrap_u64; omega)
  have hh := fmt_lu_length_le (hours e) 2 (by decide) (by unfold wrap_u64; omega)
  have hmi := fmt_lu_length_le (minutes e) 2 (by decide) (by unfold wrap_u64; omega)
  have hs := fmt_lu_length_le (secs e) 2 (by decide) (by unfold wrap_u64; omega)
  have hw := fmt_lu_length_le (percent_whole e) 1 (by decide)
    (by rw [percent_whole_eq e h0]; decide)
  have hf := fmt_02lu_length_le (percent_fractional e)
    (by rw [percent_fractional_eq e h0]; unfold wrap_u64; omega)
  have ho := fmt_lu_length_le (full_orbits e) 10 (by decide)
    (by rw [full_orbits_eq e h0 h1]; unfold wrap_u64; omega)
  rw [msg_text_length]
  omega

theorem msg_eq (e : Int) (h0 : 0 ≤ e) (h1 : e < 9223372036854775808) :
    msg e = msg_text e := by
  have hle := msg_text_length_le e h0 h1
  unfold msg snprintf
  exact List.take_of_length_le (by unfold msg_text at hle; omega)

theorem msg_len_eq (e : Int) (h0 : 0 ≤ e) (h1 : e < 9223372036854775808) :
    msg_len e = ((msg_text e).length : Int) := by
  have hle := msg_text_length_le e h0 h1
  unfold msg_len snprintf wrap_s32
  unfold msg_text at hle ⊢
  simp only
  omega

/-! ## The clamp -/

theorem elapsed_sec_eq_max (now : Int) (hlo : -9223372036854775808 + 1766016000 ≤ now)
    (hhi : now < 9223372036854775808) : elapsed_sec now = max 0 (now - BASE_TIMESTAMP) := by
  unfold elapsed_sec wrap_s64 BASE_TIMESTAMP
  simp only
  split <;> omega

theorem elapsed_sec_before_epoch (now : Int) (hlo : -9223372036854775808 + 1766016000 ≤ now)
    (hlt : now < 1766016000) : elapsed_sec now = 0 := by
  rw [elapsed_sec_eq_max now hlo (by omega)]
  unfold BASE_TIMESTAMP
  omega

/-! ## The read handler -/

theorem procfile_read_of_pos (now : Int) (not_copied len : Nat) (offset : Int)
    (h : 0 < offset) :
    procfile_read now not_copied len offset = { ret := 0, offset := offset, copied := none } := by
  unfold procfile_read
  simp only
  rw [if_pos h]

theorem procfile_read_of_copied (now : Int) (len : Nat) (offset : Int) (h : ¬ 0 < offset) :
    procfile_read now 0 len offset =
      { ret := ((msg_text (elapsed_sec now)).length : Int),
        offset := ((msg_text (elapsed_sec now)).length : Int),
        copied := some (msg_text (elapsed_sec now)) } := by
  have h0 := elapsed_sec_nonneg now
  have h1 := elapsed_sec_lt now
  unfold procfile_read
  simp only
  rw [if_neg (by simpa using h), if_neg (by decide), msg_eq _ h0 h1, msg_len_eq _ h0 h1]
  have hn : (wrap_u64 ((msg_text (elapsed_sec now)).length : Int)).toNat - 0
      = (msg_text (elapsed_sec now)).length := by
    have hle := msg_text_length_le _ h0 h1
    unfold wrap_u64
    omega
  rw [hn, List.take_length]

theorem procfile_read_of_fault (now : Int) (not_copied len : Nat) (offset : Int)
    (h : ¬ 0 < offset) (hc : not_copied ≠ 0) :
    (procfile_read now not_copied len offset).ret = -EFAULT ∧
      (procfile_read now not_copied len offset).offset = offset := by
  unfold procfile_read
  simp only
  rw [if_neg (by simpa using h), if_pos hc]
  exact ⟨rfl, rfl⟩

/-- Claim C6, as amended: for every clock value `now` earlier than the epoch
for which `now - BASE_TIMESTAMP` is representable as an `s64`
(`-2^63 + 1766016000 ≤ now`), `elapsed_sec` is clamped to `0 = max 0 (now -
epoch)` and the read at offset 0 is exactly the read for `now = epoch`:
`full_orbits = 0`, `time_in_current_orbit = 0`, `time_until_return = P`,
percentage "0.00".  More generally `elapsed_sec = max 0 (now - epoch)` for every
`s64` clock value from `-2^63 + 1766016000` on. -/
theorem report_before_epoch (now : Int) (not_copied len : Nat)
    (hlo : -9223372036854775808 + 1766016000 ≤ now) (hlt : now < BASE_TIMESTAMP) :
    elapsed_sec now = 0 ∧
      (∀ t : Int, -9223372036854775808 + 1766016000 ≤ t → t < 9223372036854775808 →
        elapsed_sec t = max 0 (t - BASE_TIMESTAMP)) ∧
      msg (elapsed_sec now) = msg (elapsed_sec BASE_TIMESTAMP) ∧
      procfile_read now not_copied len 0 = procfile_read BASE_TIMESTAMP not_copied len 0 ∧
      full_orbits (elapsed_sec now) = 0 ∧
      time_in_current_orbit (elapsed_sec now) = 0 ∧
      time_until_return (elapsed_sec now) = ORBITAL_PERIOD_SECONDS ∧
      fmt_lu (percent_whole (elapsed_sec now))
          ++ '.' :: fmt_02lu (percent_fractional (elapsed_sec now)) = ['0', '.', '0', '0'] := by
  have he : elapsed_sec now = 0 := elapsed_sec_before_epoch now hlo hlt
  have hb : elapsed_sec BASE_TIMESTAMP = 0 := by decide
  refine ⟨he, elapsed_sec_eq_max, ?_, ?_, ?_⟩
  · rw [he, hb]
  · unfold procfile_read
    rw [he, hb]
  · rw [he]
    decide

theorem report_before_epoch_witness :
    (-9223372036854775808 + 1766016000 : Int) ≤ 0 ∧ (0 : Int) < BASE_TIMESTAMP ∧
      (elapsed_sec 0 = 0 ∧
        (∀ t : Int, -9223372036854775808 + 1766016000 ≤ t → t < 9223372036854775808 →
          elapsed_sec t = max 0 (t - BASE_TIMESTAMP)) ∧
        msg (elapsed_sec 0) = msg (elapsed_sec BASE_TIMESTAMP) ∧
        procfile_read 0 0 4096 0 = procfile_read BASE_TIMESTAMP 0 4096 0 ∧
        full_orbits (elapsed_sec 0) = 0 ∧
        time_in_current_orbit (elapsed_sec 0) = 0 ∧
        time_until_return (elapsed_sec 0) = ORBITAL_PERIOD_SECONDS ∧
        fmt_lu (percent_whole (elapsed_sec 0))
            ++ '.' :: fmt_02lu (percent_fractional (elapsed_sec 0)) = ['0', '.', '0', '0']) :=
  ⟨by decide, by decide, report_before_epoch 0 0 4096 (by decide) (by decide)⟩

set_option maxRecDepth 100000 in
/-- Claim C6 as stated fails at the clock value `now = -2^63`, the least
`time64_t`: it is earlier than the epoch, `now - BASE_TIMESTAMP` wraps to
`2^63 - 1766016000`, the clamp does not fire, and the report shows 1774271321
full orbits instead of the report for `now = epoch`. -/
theorem elapsed_sec_wraps_at_min_clock :
    (-9223372036854775808 : Int) < BASE_TIMESTAMP ∧
      elapsed_sec (-9223372036854775808) = 9223372035088759808 ∧
      elapsed_sec (-9223372036854775808) ≠ 0 ∧
      full_orbits (elapsed_sec (-9223372036854775808)) = 1774271321 ∧
      (procfile_read (-9223372036854775808) 0 4096 0).copied
        ≠ (procfile_read BASE_TIMESTAMP 0 4096 0).copied := by
  decide

/-- Claim C7: for every clock value, a read at offset 0 whose transfer succeeds
(`copy_to_user` returns 0) returns `N > 0`, the exact length of the formatted
report, hands over the whole report and sets `*offset` to `N`; a following read
at offset `N` returns 0 and leaves `*offset` at `N`, whatever the clock and the
transfer do; and a fresh read at offset 0 with the same clock value returns the
same `N`. -/
theorem read_protocol (now now2 : Int) (len len2 len3 not_copied2 : Nat) :
    0 < (procfile_read now 0 len 0).ret ∧
      (procfile_read now 0 len 0).ret = ((msg_text (elapsed_sec now)).length : Int) ∧
      (procfile_read now 0 len 0).copied = some (msg_text (elapsed_sec now)) ∧
      (procfile_read now 0 len 0).offset = (procfile_read now 0 len 0).ret ∧
      procfile_read now2 not_copied2 len2 (procfile_read now 0 len 0).offset =
        { ret := 0, offset := (procfile_read now 0 len 0).offset, copied := none } ∧
      (procfile_read now 0 len3 0).ret = (procfile_read now 0 len 0).ret := by
  have hge := msg_text_length_ge (elapsed_sec now)
  rw [procfile_read_of_copied now len 0 (by decide),
    procfile_read_of_copied now len3 0 (by decide)]
  refine ⟨?_, rfl, rfl, rfl, ?_, rfl⟩
  · show (0 : Int) < ((msg_text (elapsed_sec now)).length : Int)
    omega
  · exact procfile_read_of_pos now2 not_copied2 len2 _
      (by show (0 : Int) < ((msg_text (elapsed_sec now)).length : Int); omega)

/-- The outcome computed along with the locals is the outcome of
`procfile_read`, for every input. -/
theorem procfile_read_exec_outcome (now : Int) (not_copied len : Nat) (offset : Int) :
    (procfile_read_exec now not_copied len offset).1 = procfile_read now not_copied len offset := by
  unfold procfile_read_exec procfile_read
  by_cases hp : offset > 0
  · simp only [if_pos hp]
  · by_cases hc : not_copied ≠ 0
    · simp only [if_neg hp, if_pos hc]
      rfl
    · simp only [if_neg hp, if_neg hc]
      rfl

theorem procfile_read_exec_of_pos (now : Int) (not_copied len : Nat) (offset : Int)
    (h : 0 < offset) :
    procfile_read_exec now not_copied len offset =
      ({ ret := 0, offset := offset, copied := none }, Frame.at_guard now) := by
  unfold procfile_read_exec
  simp only
  rw [if_pos h]

/-- Claim C8, as amended: for every offset greater than 0, `procfile_read`
returns 0 at once, hands nothing to the caller, performs no report computation
and leaves `*offset` unchanged, whatever the clock value, the transfer outcome
and the requested length are.  No report computation: at the `return` the
locals are those of the declarations, `now` and the unclamped difference
`now - BASE_TIMESTAMP` of lines 26-27; no orbit, percentage, distance or
countdown variable has been assigned, `msg` has not been written, `snprintf` and
`copy_to_user` have not been called. -/
theorem read_at_positive_offset (now : Int) (not_copied len : Nat) (offset : Int)
    (h : 0 < offset) :
    procfile_read now not_copied len offset = { ret := 0, offset := offset, copied := none } ∧
      procfile_read_exec now not_copied len offset =
        (procfile_read now not_copied len offset, Frame.at_guard now) ∧
      ((procfile_read_exec now not_copied len offset).2.full_orbits = none ∧
        (procfile_read_exec now not_copied len offset).2.time_in_current_orbit = none ∧
        (procfile_read_exec now not_copied len offset).2.time_until_return = none ∧
        (procfile_read_exec now not_copied len offset).2.orbit_completion_percent = none ∧
        (procfile_read_exec now not_copied len offset).2.neptune_distance_km = none ∧
        (procfile_read_exec now not_copied len offset).2.distance_increase = none ∧
        (procfile_read_exec now not_copied len offset).2.years = none ∧
        (procfile_read_exec now not_copied len offset).2.months = none ∧
        (procfile_read_exec now not_copied len offset).2.days = none ∧
        (procfile_read_exec now not_copied len offset).2.hours = none ∧
        (procfile_read_exec now not_copied len offset).2.minutes = none ∧
        (procfile_read_exec now not_copied len offset).2.secs = none ∧
        (procfile_read_exec now not_copied len offset).2.msg = none ∧
        (procfile_read_exec now not_copied len offset).2.msg_len = none) ∧
      (procfile_read now not_copied len offset).copied = none := by
  rw [procfile_read_exec_of_pos now not_copied len offset h,
    procfile_read_of_pos now not_copied len offset h]
  exact ⟨rfl, rfl, ⟨rfl, rfl, rfl, rfl, rfl, rfl, rfl, rfl, rfl, rfl, rfl, rfl, rfl, rfl⟩, rfl⟩

theorem read_at_positive_offset_witness :
    (0 : Int) < 436 ∧
      (procfile_read 1766016000 0 4096 436 = { ret := 0, offset := 436, copied := none } ∧
        procfile_read_exec 1766016000 0 4096 436 =
          (procfile_read 1766016000 0 4096 436, Frame.at_guard 1766016000) ∧
        ((procfile_read_exec 1766016000 0 4096 436).2.full_orbits = none ∧
          (procfile_read_exec 1766016000 0 4096 436).2.time_in_current_orbit = none ∧
          (procfile_read_exec 1766016000 0 4096 436).2.time_until_return = none ∧
          (procfile_read_exec 1766016000 0 4096 436).2.orbit_completion_percent = none ∧
          (procfile_read_exec 1766016000 0 4096 436).2.neptune_distance_km = none ∧
          (procfile_read_exec 1766016000 0 4096 436).2.distance_increase = none ∧
          (procfile_read_exec 1766016000 0 4096 436).2.years = none ∧
          (procfile_read_exec 1766016000 0 4096 436).2.months = none ∧
          (procfile_read_exec 1766016000 0 4096 436).2.days = none ∧
          (procfile_read_exec 1766016000 0 4096 436).2.hours = none ∧
          (procfile_read_exec 1766016000 0 4096 436).2.minutes = none ∧
          (procfile_read_exec 1766016000 0 4096 436).2.secs = none ∧
          (procfile_read_exec 1766016000 0 4096 436).2.msg = none ∧
          (procfile_read_exec 1766016000 0 4096 436).2.msg_len = none) ∧
        (procfile_read 1766016000 0 4096 436).copied = none) :=
  ⟨by decide, read_at_positive_offset 1766016000 0 4096 436 (by decide)⟩

set_option maxRecDepth 100000 in
/-- Claim C8 as stated fails at the non-zero offset `-1`: the guard is
`*offset > 0`, so the call is not ended at once.  It performs the report
computation (the orbit and countdown variables are assigned, `msg` is written
with the 436 characters of the report), hands all 436 bytes to the caller,
returns 436 and moves `*offset` from `-1` to 436. -/
theorem read_at_negative_offset :
    (-1 : Int) ≠ 0 ∧
      (procfile_read BASE_TIMESTAMP 0 4096 (-1)).ret = 436 ∧
      (procfile_read BASE_TIMESTAMP 0 4096 (-1)).offset = 436 ∧
      (procfile_read BASE_TIMESTAMP 0 4096 (-1)).copied = some (msg_text 0) ∧
      (procfile_read BASE_TIMESTAMP 0 4096 (-1)).ret ≠ 0 ∧
      (procfile_read BASE_TIMESTAMP 0 4096 (-1)).offset ≠ -1 ∧
      (procfile_read BASE_TIMESTAMP 0 4096 (-1)).copied ≠ none ∧
      (procfile_read_exec BASE_TIMESTAMP 0 4096 (-1)).1 = procfile_read BASE_TIMESTAMP 0 4096 (-1) ∧
      (procfile_read_exec BASE_TIMESTAMP 0 4096 (-1)).2.full_orbits = some 0 ∧
      (procfile_read_exec BASE_TIMESTAMP 0 4096 (-1)).2.time_until_return = some 5198400000 ∧
      (procfile_read_exec BASE_TIMESTAMP 0 4096 (-1)).2.years = some 164 ∧
      (procfile_read_exec BASE_TIMESTAMP 0 4096 (-1)).2.msg = some (msg_text 0) ∧
      (procfile_read_exec BASE_TIMESTAMP 0 4096 (-1)).2.msg_len = some 436 ∧
      (procfile_read_exec BASE_TIMESTAMP 0 4096 (-1)).2 ≠ Frame.at_guard BASE_TIMESTAMP := by
  decide

/-- Claim C9: for every `elapsed_sec` in `[0, 2^63)`, the length `msg_len` of
the formatted text is below `sizeof(msg) = 600` (at most 447), so `snprintf`
leaves the whole text in `msg` and the `msg_len` bytes given to `copy_to_user`
lie inside `msg`. -/
theorem msg_fits_buffer (e : Int) (h0 : 0 ≤ e) (h1 : e < 9223372036854775808) :
    msg_len e < 600 ∧ msg_len e ≤ 447 ∧
      msg_len e = ((msg_text e).length : Int) ∧
      msg e = msg_text e ∧
      (wrap_u64 (msg_len e)).toNat = (msg e).length ∧ (msg e).length < 600 := by
  have hle := msg_text_length_le e h0 h1
  rw [msg_len_eq e h0 h1, msg_eq e h0 h1]
  unfold wrap_u64
  exact ⟨by omega, by omega, rfl, rfl, by omega, by omega⟩

set_option maxRecDepth 100000 in
theorem msg_fits_buffer_witness :
    (0 : Int) ≤ 9223372036854775807 ∧ (9223372036854775807 : Int) < 9223372036854775808 ∧
      (msg_len 9223372036854775807 < 600 ∧ msg_len 9223372036854775807 ≤ 447 ∧
        msg_len 9223372036854775807 = ((msg_text 9223372036854775807).length : Int) ∧
        msg 9223372036854775807 = msg_text 9223372036854775807 ∧
        (wrap_u64 (msg_len 9223372036854775807)).toNat = (msg 9223372036854775807).length ∧
        (msg 9223372036854775807).length < 600) :=
  ⟨by decide, by decide, msg_fits_buffer 9223372036854775807 (by decide) (by decide)⟩

/-- Claim C10: `procfile_read` returns `-EFAULT` exactly when `*offset` is not
greater than 0 and `copy_to_user` reports bytes it could not store; `*offset` is
then left as it was; and a negative return value is always `-EFAULT`. -/
theorem read_fault_iff (now : Int) (not_copied len : Nat) (offset : Int) :
    ((procfile_read now not_copied len offset).ret = -EFAULT ↔
        (¬ offset > 0 ∧ not_copied ≠ 0)) ∧
      ((procfile_read now not_copied len offset).ret = -EFAULT →
        (procfile_read now not_copied len offset).offset = offset) ∧
      ((procfile_read now not_copied len offset).ret < 0 →
        (procfile_read now not_copied len offset).ret = -EFAULT) := by
  have hge := msg_text_length_ge (elapsed_sec now)
  by_cases hp : 0 < offset
  · rw [procfile_read_of_pos now not_copied len offset hp]
    have hne : ¬ (0 : Int) = -EFAULT := by decide
    have hnl : ¬ (0 : Int) < 0 := by decide
    exact ⟨⟨fun h => absurd h hne, fun h => absurd hp h.1⟩,
      fun h => absurd h hne, fun h => absurd h hnl⟩
  · by_cases hc : not_copied = 0
    · subst hc
      rw [procfile_read_of_copied now len offset hp]
      have hne : ((msg_text (elapsed_sec now)).length : Int) ≠ -EFAULT := by
        unfold EFAULT
        omega
      refine ⟨⟨fun h => absurd h hne, fun h => absurd rfl h.2⟩,
        fun h => absurd h hne, fun h => ?_⟩
      have h' : ((msg_text (elapsed_sec now)).length : Int) < 0 := h
      omega
    · obtain ⟨hr, ho⟩ := procfile_read_of_fault now not_copied len offset hp hc
      exact ⟨⟨fun _ => ⟨hp, hc⟩, fun _ => hr⟩, fun _ => ho, fun _ => hr⟩

/-! ## The technical parameters -/

set_option maxRecDepth 100000 in
/-- Claim C11, evaluated: the format string holds eleven conversions for
thirteen arguments, so the twelfth and thirteenth argument (the orbital speed
and `distance_increase / 1000000`) are never rendered.  Whatever values stand in
their places the text is the same, and at `elapsed_sec = 1000000`, where the
distance increase is 5 million km, the section "Technical parameters" of the
report consists of the orbital period alone. -/
theorem report_omits_speed_and_distance (e : Int) (x y : FmtArg) :
    (msg_args e).length = 13 ∧
      (msg_args e).drop 11 =
        [FmtArg.int ORBITAL_SPEED_KM_PER_SEC,
          FmtArg.ulong (Int.tdiv (distance_increase e) 1000000)] ∧
      vsnprintf_text msg_format.data ((msg_args e).take 11 ++ [x, y]) = msg_text e ∧
      Int.tdiv (distance_increase 1000000) 1000000 = 5 ∧
      msg_text 1000000 =
        msg_head.data ++
          ("164 years 9 months 5 days\n" ++
            "2 hours 13 minutes 20 seconds\n\n" ++
            "Current orbit progress: 0.00%\n" ++
            "Full orbits since 2025-12-18: 0").data ++
          msg_tail.data := by
  refine ⟨rfl, rfl, rfl, by decide, by decide⟩

/-! ## Integer widths -/

/-- Claim C12: for every `elapsed_sec` in `[0, 2^40]` no 64-bit computation of
`procfile_read` wraps: the percentage numerator `100ULL * time_in_current_orbit`,
the difference `ORBITAL_PERIOD_SECONDS - time_in_current_orbit` and the product
`ORBITAL_SPEED_KM_PER_SEC * elapsed_sec` equal their unbounded values, so
`distance_increase = 5 * elapsed_sec`. -/
theorem no_wrap_up_to_2_pow_40 (e : Int) (h0 : 0 ≤ e) (h1 : e ≤ 1099511627776) :
    wrap_u64 (100 * wrap_u64 (time_in_current_orbit e)) = 100 * time_in_current_orbit e ∧
      orbit_completion_percent e = (100 * time_in_current_orbit e) / ORBITAL_PERIOD_SECONDS ∧
      time_until_return e = ORBITAL_PERIOD_SECONDS - time_in_current_orbit e ∧
      wrap_s64 (ORBITAL_SPEED_KM_PER_SEC * e) = ORBITAL_SPEED_KM_PER_SEC * e ∧
      distance_increase e = 5 * e ∧
      full_orbits e = e / ORBITAL_PERIOD_SECONDS := by
  rw [orbit_completion_percent_eq e h0, time_until_return_eq e h0,
    full_orbits_eq e h0 (by omega), time_in_current_orbit_eq e h0]
  unfold distance_increase wrap_u64 wrap_s64 ORBITAL_SPEED_KM_PER_SEC ORBITAL_PERIOD_SECONDS
  refine ⟨by omega, rfl, rfl, by omega, by omega, rfl⟩

theorem no_wrap_up_to_2_pow_40_witness :
    (0 : Int) ≤ 1099511627776 ∧ (1099511627776 : Int) ≤ 1099511627776 ∧
      (wrap_u64 (100 * wrap_u64 (time_in_current_orbit 1099511627776))
          = 100 * time_in_current_orbit 1099511627776 ∧
        orbit_completion_percent 1099511627776
          = (100 * time_in_current_orbit 1099511627776) / ORBITAL_PERIOD_SECONDS ∧
        time_until_return 1099511627776
          = ORBITAL_PERIOD_SECONDS - time_in_current_orbit 1099511627776 ∧
        wrap_s64 (ORBITAL_SPEED_KM_PER_SEC * 1099511627776)
          = ORBITAL_SPEED_KM_PER_SEC * 1099511627776 ∧
        distance_increase 1099511627776 = 5 * 1099511627776 ∧
        full_orbits 1099511627776 = 1099511627776 / ORBITAL_PERIOD_SECONDS) :=
  ⟨by decide, by decide, no_wrap_up_to_2_pow_40 1099511627776 (by decide) (by decide)⟩

/-! ## The countdown fields -/

/-- Claim C13: for every clamped `elapsed_sec`, at least one of the six
countdown fields `years`, `months`, `days`, `hours`, `minutes`, `secs` is not
zero, also when `elapsed_sec` is a multiple of the orbital period (at
`elapsed_sec = P` the fields are 164, 10, 16, 16, 0, 0). -/
theorem countdown_not_all_zero (e : Int) (h0 : 0 ≤ e) :
    (years e ≠ 0 ∨ months e ≠ 0 ∨ days e ≠ 0 ∨ hours e ≠ 0 ∨ minutes e ≠ 0 ∨ secs e ≠ 0) ∧
      (ORBITAL_PERIOD_SECONDS ∣ e → years e = 164 ∧ months e = 10 ∧ days e = 16 ∧
        hours e = 16 ∧ minutes e = 0 ∧ secs e = 0) := by
  have hu := time_until_return_range e h0
  have hr := time_until_return_eq e h0
  rw [years_eq e h0, months_eq e h0, days_eq e h0, hours_eq e h0, minutes_eq e h0,
    secs_eq e h0]
  constructor
  · generalize time_until_return e = u at hu
    omega
  · intro hd
    have hp : time_until_return e = 5198400000 := by
      unfold ORBITAL_PERIOD_SECONDS at hd
      omega
    rw [hp]
    decide

theorem countdown_not_all_zero_witness :
    (0 : Int) ≤ 5198400000 ∧
      ((years 5198400000 ≠ 0 ∨ months 5198400000 ≠ 0 ∨ days 5198400000 ≠ 0 ∨
          hours 5198400000 ≠ 0 ∨ minutes 5198400000 ≠ 0 ∨ secs 5198400000 ≠ 0) ∧
        (ORBITAL_PERIOD_SECONDS ∣ 5198400000 → years 5198400000 = 164 ∧
          months 5198400000 = 10 ∧ days 5198400000 = 16 ∧ hours 5198400000 = 16 ∧
          minutes 5198400000 = 0 ∧ secs 5198400000 = 0)) :=
  ⟨by decide, countdown_not_all_zero 5198400000 (by decide)⟩

/-- Claim C15: for every clamped `elapsed_sec`, `years ≤ 164`, `months ≤ 12`,
`days ≤ 29`, `hours ≤ 23`, `minutes ≤ 59` and `secs ≤ 59`; the bound on
`months` is reached at `elapsed_sec = 5198400000 - 31104000 = 5167296000`. -/
theorem countdown_fields_le (e : Int) (h0 : 0 ≤ e) :
    (years e ≤ 164 ∧ months e ≤ 12 ∧ days e ≤ 29 ∧ hours e ≤ 23 ∧ minutes e ≤ 59 ∧
        secs e ≤ 59) ∧
      (0 ≤ years e ∧ 0 ≤ months e ∧ 0 ≤ days e ∧ 0 ≤ hours e ∧ 0 ≤ minutes e ∧
        0 ≤ secs e) ∧
      ((0 : Int) ≤ 5198400000 - 31104000 ∧ months (5198400000 - 31104000) = 12) := by
  obtain ⟨hy, hmo, hd, hh, hmi, hs⟩ := countdown_fields_range e h0
  exact ⟨⟨hy.2, hmo.2, hd.2, hh.2, hmi.2, hs.2⟩, ⟨hy.1, hmo.1, hd.1, hh.1, hmi.1, hs.1⟩,
    by decide⟩

theorem countdown_fields_le_witness :
    (0 : Int) ≤ 5167296000 ∧
      ((years 5167296000 ≤ 164 ∧ months 5167296000 ≤ 12 ∧ days 5167296000 ≤ 29 ∧
          hours 5167296000 ≤ 23 ∧ minutes 5167296000 ≤ 59 ∧ secs 5167296000 ≤ 59) ∧
        (0 ≤ years 5167296000 ∧ 0 ≤ months 5167296000 ∧ 0 ≤ days 5167296000 ∧
          0 ≤ hours 5167296000 ∧ 0 ≤ minutes 5167296000 ∧ 0 ≤ secs 5167296000) ∧
        ((0 : Int) ≤ 5198400000 - 31104000 ∧ months (5198400000 - 31104000) = 12)) :=
  ⟨by decide, countdown_fields_le 5167296000 (by decide)⟩

/-! ## The requested length -/

/-- Claim C14: the outcome of `procfile_read` is the same for every requested
length `len`; a read at offset 0 whose transfer succeeds hands over all `N`
bytes of the report, returns `N` and sets `*offset = N` whatever `len` is, so
the returned count exceeds `len` whenever `len < N` (in particular for every
`len` below 421, `len = 0` included). -/
theorem read_ignores_len (now : Int) (not_copied len len2 : Nat) (offset : Int) :
    procfile_read now not_copied len offset = procfile_read now not_copied len2 offset ∧
      procfile_read now 0 len 0 =
        { ret := ((msg_text (elapsed_sec now)).length : Int),
          offset := ((msg_text (elapsed_sec now)).length : Int),
          copied := some (msg_text (elapsed_sec now)) } ∧
      (len < (msg_text (elapsed_sec now)).length →
        (len : Int) < (procfile_read now 0 len 0).ret) ∧
      (len < 421 → (len : Int) < (procfile_read now 0 len 0).ret) ∧
      (0 : Int) < (procfile_read now 0 0 0).ret := by
  have hge := msg_text_length_ge (elapsed_sec now)
  have hr : ∀ l : Nat, (procfile_read now 0 l 0).ret
      = ((msg_text (elapsed_sec now)).length : Int) := fun l => by
    rw [procfile_read_of_copied now l 0 (by decide)]
  refine ⟨rfl, procfile_read_of_copied now len 0 (by decide), ?_, ?_, ?_⟩
  · intro h
    rw [hr]
    omega
  · intro h
    rw [hr]
    omega
  · rw [hr]
    omega

end Ko
